import Mathlib

/-!
Verification of the kubeconfig resolution core (src/config/kube_config.rs):
context/cluster/user resolution with overrides, the two TLS identity
pipelines, and the certificate-authority trust-bundle builder.

The data model (Config, Context, Cluster, AuthInfo and their named wrappers)
lives in the crate module config/apis; it is modelled here from the spec
(section 3).  Third-party TLS library functions (openssl, rustls, reqwest)
are taken as parameters of the embedded functions, except the PEM bundle
parsers whose input/output behaviour the spec pins down (section 4.5) and
which are modelled concretely over an abstract block representation.
-/

namespace KubeRs

/-- Error kinds of the crate (ErrorKind in the source): a kubeconfig
resolution failure carrying a message, or an SSL encoding failure. -/
inductive ErrorKind where
  | kubeConfig (msg : String)
  | sslError
deriving DecidableEq, Repr

/-- Errors: either a bare kind (ErrorKind converted into Error, as the
question-mark operator does in the source), or a kind wrapping an underlying
cause, as produced by the failure crate combinator that attaches a context
kind to an error while keeping the original error as the cause. -/
inductive KError where
  | kind (k : ErrorKind)
  | wrap (k : ErrorKind) (cause : String)
deriving DecidableEq, Repr

/-- Map the error of an Except, leaving successes unchanged (Rust map_err). -/
def mapErr {e k a : Type} (f : e → k) : Except e a → Except k a
  | .ok x => .ok x
  | .error x => .error (f x)

/-- Modelled from the spec (section 3): a PEM bundle is a sequence of blocks,
each either a well-formed certificate block (identified by the DER bytes it
encodes) or a malformed block. -/
inductive PemBlock where
  | cert (der : List Nat)
  | malformed
deriving DecidableEq, Repr

/-- Modelled from the spec (section 3): a context is a pair of references,
by name, to a cluster and a user. -/
structure Context where
  cluster : String
  user : String
deriving DecidableEq, Repr

/-- Modelled from the spec (section 3): a cluster record holds the server
endpoint, optional certificate-authority data and a TLS-verify flag. -/
structure Cluster where
  server : String
  certificate_authority : Option (List PemBlock)
  insecure_skip_tls_verify : Bool
deriving DecidableEq, Repr

/-- Modelled from the spec (section 3): credential material of a user:
client certificate and key bytes (or paths, resolved by the loaders below),
plus an optional external auth-provider descriptor. -/
structure AuthInfo where
  client_certificate : Option (List Nat)
  client_key : Option (List Nat)
  token : Option String
  auth_provider : Option String
deriving DecidableEq, Repr

/-- Modelled from the spec (section 3): a named context record. -/
structure NamedContext where
  name : String
  context : Context
deriving DecidableEq, Repr

/-- Modelled from the spec (section 3): a named cluster record. -/
structure NamedCluster where
  name : String
  cluster : Cluster
deriving DecidableEq, Repr

/-- Modelled from the spec (section 3): a named auth-info record. -/
structure NamedAuthInfo where
  name : String
  auth_info : AuthInfo
deriving DecidableEq, Repr

/-- Modelled from the spec (section 3): the top-level configuration with a
default context name and the three named collections. -/
structure Config where
  current_context : String
  contexts : List NamedContext
  clusters : List NamedCluster
  auth_infos : List NamedAuthInfo
deriving DecidableEq, Repr

/-- The resolved triple produced by loading (KubeConfigLoader in the
source): fields current_context, cluster, user. -/
structure KubeConfigLoader where
  current_context : Context
  cluster : Cluster
  user : AuthInfo
deriving DecidableEq, Repr

/-- Shallow embedding of KubeConfigLoader::load (kube_config.rs lines
27-66).  The file parser Config::load_config and the credential
materializer AuthInfo::load_gcp live in other modules of the crate, so the
parsed Config and the load_gcp function are taken as arguments; in the
source load_gcp mutates, in place, a clone of the found auth_info and
returns a unit Result, which is embedded as a function returning the
updated AuthInfo.  The source binds context_name, cluster_name and
user_name with unwrap_or of the override; those bindings are inlined. -/
def KubeConfigLoader.load (load_gcp : AuthInfo → Except KError AuthInfo)
    (config : Config) (context cluster user : Option String) :
    Except KError KubeConfigLoader :=
  match config.contexts.find?
      (fun named_context => named_context.name == context.getD config.current_context) with
  | none => .error (.kind (.kubeConfig "Unable to load current context"))
  | some named_context =>
    match config.clusters.find?
        (fun named_cluster => named_cluster.name == cluster.getD named_context.context.cluster) with
    | none => .error (.kind (.kubeConfig "Unable to load cluster of context"))
    | some named_cluster =>
      match config.auth_infos.find?
          (fun named_user => named_user.name == user.getD named_context.context.user) with
      | none => .error (.kind (.kubeConfig "Unable to load user of context"))
      | some named_user =>
        match load_gcp named_user.auth_info with
        | .error e => .error e
        | .ok u => .ok ⟨named_context.context, named_cluster.cluster, u⟩

/-- The same embedding of KubeConfigLoader::load, additionally returning
the Config value as it stands after the call, threading through the one
in-place mutation the source performs: user.load_gcp() on line 55 acts on
the clone taken on line 54 (named_user.auth_info.clone()), so no branch
writes back into the configuration and every branch returns the input
Config. -/
def KubeConfigLoader.load_mut (load_gcp : AuthInfo → Except KError AuthInfo)
    (config : Config) (context cluster user : Option String) :
    Except KError KubeConfigLoader × Config :=
  match config.contexts.find?
      (fun named_context => named_context.name == context.getD config.current_context) with
  | none => (.error (.kind (.kubeConfig "Unable to load current context")), config)
  | some named_context =>
    match config.clusters.find?
        (fun named_cluster => named_cluster.name == cluster.getD named_context.context.cluster) with
    | none => (.error (.kind (.kubeConfig "Unable to load cluster of context")), config)
    | some named_cluster =>
      match config.auth_infos.find?
          (fun named_user => named_user.name == user.getD named_context.context.user) with
      | none => (.error (.kind (.kubeConfig "Unable to load user of context")), config)
      | some named_user =>
        match load_gcp named_user.auth_info with
        | .error e => (.error e, config)
        | .ok u => (.ok ⟨named_context.context, named_cluster.cluster, u⟩, config)

/-- The same embedding of KubeConfigLoader::load, instrumented with a flag
recording whether the credential materializer load_gcp was invoked on this
execution: the closure on lines 53-59 runs only when the auth-info lookup
found a record, and the earlier question-mark operators abort before it. -/
def KubeConfigLoader.load_traced (load_gcp : AuthInfo → Except KError AuthInfo)
    (config : Config) (context cluster user : Option String) :
    Except KError KubeConfigLoader × Bool :=
  match config.contexts.find?
      (fun named_context => named_context.name == context.getD config.current_context) with
  | none => (.error (.kind (.kubeConfig "Unable to load current context")), false)
  | some named_context =>
    match config.clusters.find?
        (fun named_cluster => named_cluster.name == cluster.getD named_context.context.cluster) with
    | none => (.error (.kind (.kubeConfig "Unable to load cluster of context")), false)
    | some named_cluster =>
      match config.auth_infos.find?
          (fun named_user => named_user.name == user.getD named_context.context.user) with
      | none => (.error (.kind (.kubeConfig "Unable to load user of context")), false)
      | some named_user =>
        match load_gcp named_user.auth_info with
        | .error e => (.error e, true)
        | .ok u => (.ok ⟨named_context.context, named_cluster.cluster, u⟩, true)

/-- Modelled from the spec (section 4.4): resolve the client certificate of
a user to a byte buffer (inline data or referenced file); absent material
is an error.  The loader itself lives in the crate module config/apis. -/
def AuthInfo.load_client_certificate (u : AuthInfo) : Except KError (List Nat) :=
  match u.client_certificate with
  | some b => .ok b
  | none => .error (.kind (.kubeConfig "client certificate missing"))

/-- Modelled from the spec (section 4.4): resolve the client key of a user
to a byte buffer; absent material is an error. -/
def AuthInfo.load_client_key (u : AuthInfo) : Except KError (List Nat) :=
  match u.client_key with
  | some b => .ok b
  | none => .error (.kind (.kubeConfig "client key missing"))

/-- Modelled from the spec (section 4.5): resolve the certificate-authority
data of a cluster to its PEM bundle; a cluster with no CA data configured
yields an error, which the callers below turn into the None result. -/
def Cluster.load_certificate_authority (c : Cluster) : Except KError (List PemBlock) :=
  match c.certificate_authority with
  | some b => .ok b
  | none => .error (.kind (.kubeConfig "certificate authority missing"))

/-- An X.509 certificate structure, identified by the DER bytes it
encodes (the only observation the source makes of it). -/
structure X509 where
  der : List Nat
deriving DecidableEq, Repr

/-- A private key structure parsed from PEM bytes. -/
structure PKey where
  data : List Nat
deriving DecidableEq, Repr

/-- A PKCS#12 archive as built by the openssl builder: it packages the
password, the friendly name, the key and the certificate. -/
structure Pkcs12 where
  password : String
  friendly_name : String
  key : PKey
  cert : X509
deriving DecidableEq, Repr

/-- A TLS identity object (reqwest::Identity), identified by the bytes the
constructor consumed. -/
structure Identity where
  data : List Nat
deriving DecidableEq, Repr

/-- A TLS trusted-certificate object (reqwest::Certificate), identified by
the DER bytes it was constructed from. -/
structure Certificate where
  der : List Nat
deriving DecidableEq, Repr

/-- The third-party openssl and reqwest functions the source calls; the
embedded functions are parametric in them.  Each fallible step yields its
cause as a string on failure. -/
structure OpensslOps where
  x509_from_pem : List Nat → Except String X509
  private_key_from_pem : List Nat → Except String PKey
  pkcs12_build : String → String → PKey → X509 → Except String Pkcs12
  pkcs12_to_der : Pkcs12 → Except String (List Nat)
  from_pkcs12_der : List Nat → String → Except String Identity
  x509_to_der : X509 → Except String (List Nat)
  certificate_from_der : List Nat → Except String Certificate

/-- The third-party rustls-side functions the source calls. -/
structure RustlsOps where
  certificate_from_der : List Nat → Except String Certificate

/-- Shallow embedding of KubeConfigLoader::identity, openssl variant
(kube_config.rs lines 68-81): load the client certificate and key, parse
both, build a PKCS#12 archive under the fixed placeholder password (a
single space) with friendly name kubeconfig, serialize it to DER, and hand
the DER plus the same placeholder password to the identity constructor.
Each fallible third-party step is wrapped by the failure context
combinator with kind SslError, keeping the cause. -/
def KubeConfigLoader.identity_openssl (ops : OpensslOps) (l : KubeConfigLoader) :
    Except KError Identity :=
  match l.user.load_client_certificate with
  | .error e => .error e
  | .ok client_cert =>
  match l.user.load_client_key with
  | .error e => .error e
  | .ok client_key =>
  match ops.x509_from_pem client_cert with
  | .error c => .error (.wrap .sslError c)
  | .ok x509 =>
  match ops.private_key_from_pem client_key with
  | .error c => .error (.wrap .sslError c)
  | .ok pkey =>
  match ops.pkcs12_build " " "kubeconfig" pkey x509 with
  | .error c => .error (.wrap .sslError c)
  | .ok p12 =>
  match ops.pkcs12_to_der p12 with
  | .error c => .error (.wrap .sslError c)
  | .ok der =>
  match ops.from_pkcs12_der der " " with
  | .error c => .error (.wrap .sslError c)
  | .ok i => .ok i

/-- Shallow embedding of KubeConfigLoader::identity, rustls variant
(kube_config.rs lines 83-92): load the client certificate and key,
concatenate key bytes then certificate bytes into one buffer (the source
clones client_key and extends it with client_cert), and pass the buffer to
the PEM identity constructor; a constructor failure is mapped to a bare
SslError, discarding the cause (line 91). -/
def KubeConfigLoader.identity_rustls (from_pem : List Nat → Except String Identity)
    (l : KubeConfigLoader) : Except KError Identity :=
  match l.user.load_client_certificate with
  | .error e => .error e
  | .ok client_cert =>
  match l.user.load_client_key with
  | .error e => .error e
  | .ok client_key =>
  match from_pem (client_key ++ client_cert) with
  | .error _ => .error (.kind .sslError)
  | .ok i => .ok i

/-- Modelled from the spec (section 4.5): X509::stack_from_pem parses a PEM
bundle into the list of certificate structures in input order; the whole
parse fails if any block is malformed. -/
def X509.stack_from_pem : List PemBlock → Except String (List X509)
  | [] => .ok []
  | .cert d :: rest =>
    match X509.stack_from_pem rest with
    | .ok cs => .ok (⟨d⟩ :: cs)
    | .error e => .error e
  | .malformed :: _ => .error "pem parse failure"

/-- Modelled from the spec (section 4.5): the rustls pemfile certs reader
parses a PEM bundle into certificates in input order, failing (with the
unit error of its Rust signature) if any block is malformed. -/
def pemfile_certs : List PemBlock → Except Unit (List X509)
  | [] => .ok []
  | .cert d :: rest =>
    match pemfile_certs rest with
    | .ok cs => .ok (⟨d⟩ :: cs)
    | .error e => .error e
  | .malformed :: _ => .error ()

/-- The loop of ca_bundle, openssl variant (kube_config.rs lines 100-105):
re-encode each parsed X509 to DER and construct a reqwest Certificate from
it, in input order; the source applies ok() then the question-mark operator
to each step inside the loop, so any failure aborts the whole call with
None. -/
def push_certs (ops : OpensslOps) : List X509 → Option (List Certificate)
  | [] => some []
  | c :: rest =>
    match ops.x509_to_der c with
    | .error _ => none
    | .ok d =>
      match ops.certificate_from_der d with
      | .error _ => none
      | .ok cert =>
        match push_certs ops rest with
        | none => none
        | some certs => some (cert :: certs)

/-- The rustls Codec get_encoding of an opaque certificate payload, as
called on kube_config.rs line 120: the TLS wire encoding, a 3-byte
big-endian u24 length prefix followed by the payload bytes; in particular
it is never the DER payload itself. -/
def X509.get_encoding (c : X509) : List Nat :=
  [c.der.length / 65536 % 256, c.der.length / 256 % 256, c.der.length % 256] ++ c.der

/-- The loop of ca_bundle, rustls variant (kube_config.rs lines 119-121):
construct a reqwest Certificate from cert.get_encoding(), the
length-prefixed TLS encoding of each parsed certificate rather than its
DER; get_encoding itself is infallible, and any constructor failure
aborts the whole call with None. -/
def push_certs_rustls (ops : RustlsOps) : List X509 → Option (List Certificate)
  | [] => some []
  | c :: rest =>
    match ops.certificate_from_der c.get_encoding with
    | .error _ => none
    | .ok cert =>
      match push_certs_rustls ops rest with
      | none => none
      | some certs => some (cert :: certs)

/-- Shallow embedding of KubeConfigLoader::ca_bundle, openssl variant
(kube_config.rs lines 94-108).  Every fallible step is followed by ok()
and the question-mark operator, so each failure, including the SslError
built by map_err on line 98, is discarded and the whole call returns
None. -/
def KubeConfigLoader.ca_bundle_openssl (ops : OpensslOps) (l : KubeConfigLoader) :
    Option (Except KError (List Certificate)) :=
  match l.cluster.load_certificate_authority with
  | .error _ => none
  | .ok bundle =>
    match X509.stack_from_pem bundle with
    | .error _ => none
    | .ok stack =>
      match push_certs ops stack with
      | none => none
      | some certs => some (.ok certs)

/-- Shallow embedding of KubeConfigLoader::ca_bundle, rustls variant
(kube_config.rs lines 110-124), with the same ok() question-mark shape. -/
def KubeConfigLoader.ca_bundle_rustls (ops : RustlsOps) (l : KubeConfigLoader) :
    Option (Except KError (List Certificate)) :=
  match l.cluster.load_certificate_authority with
  | .error _ => none
  | .ok bundle =>
    match pemfile_certs bundle with
    | .error _ => none
    | .ok stack =>
      match push_certs_rustls ops stack with
      | none => none
      | some certs => some (.ok certs)

/-- Canonical instantiation of the third-party functions in which every
conversion succeeds and the structures record their inputs: well-formed
material converts without failure. -/
def opensslOps0 : OpensslOps :=
  ⟨fun b => .ok ⟨b⟩,
   fun b => .ok ⟨b⟩,
   fun pw nm k x => .ok ⟨pw, nm, k, x⟩,
   fun p => .ok p.cert.der,
   fun d _ => .ok ⟨d⟩,
   fun c => .ok c.der,
   fun d => .ok ⟨d⟩⟩

/-- Canonical rustls-side instantiation in which construction succeeds. -/
def rustlsOps0 : RustlsOps := ⟨fun d => .ok ⟨d⟩⟩

/-- A credential materializer that loads nothing (static credentials: the
no-op case of the spec, section 4.3). -/
def load_gcp_id : AuthInfo → Except KError AuthInfo := fun a => .ok a

/-- A credential materializer whose external fetch fails. -/
def load_gcp_fail : AuthInfo → Except KError AuthInfo :=
  fun _ => .error (.kind (.kubeConfig "gcp credential fetch failed"))

/-- Concrete auth-info record with inline certificate and key bytes. -/
def authInfo_u1 : AuthInfo := ⟨some [10], some [20], none, none⟩

/-- Concrete cluster record named by cfg_w as cluster a. -/
def cluster_a : Cluster := ⟨"https://a", none, false⟩

/-- Concrete cluster record named by cfg_w as cluster b. -/
def cluster_b : Cluster := ⟨"https://b", none, false⟩

/-- Concrete context referencing cluster a and user u1. -/
def ctx_dev : Context := ⟨"a", "u1"⟩

/-- Concrete configuration: default context dev referencing cluster a and
user u1, with a second cluster b available for override tests. -/
def cfg_w : Config :=
  ⟨"dev", [⟨"dev", ctx_dev⟩], [⟨"a", cluster_a⟩, ⟨"b", cluster_b⟩], [⟨"u1", authInfo_u1⟩]⟩

/-- Concrete configuration with no contexts at all. -/
def cfg_empty : Config := ⟨"dev", [], [], []⟩

/-- Concrete configuration whose context resolves but whose cluster
collection is empty. -/
def cfg_noClusters : Config := ⟨"dev", [⟨"dev", ctx_dev⟩], [], []⟩

/-- Concrete configuration whose context and cluster resolve but whose
auth-info collection is empty. -/
def cfg_noUsers : Config := ⟨"dev", [⟨"dev", ctx_dev⟩], [⟨"a", cluster_a⟩], []⟩

/-- Decidable equality on Except, for evaluating concrete load results. -/
instance {e a : Type} [DecidableEq e] [DecidableEq a] : DecidableEq (Except e a) := fun x y =>
  match x, y with
  | .ok v, .ok w =>
    if h : v = w then isTrue (by rw [h]) else isFalse (fun hh => by cases hh; exact h rfl)
  | .error v, .error w =>
    if h : v = w then isTrue (by rw [h]) else isFalse (fun hh => by cases hh; exact h rfl)
  | .ok _, .error _ => isFalse (fun hh => by cases hh)
  | .error _, .ok _ => isFalse (fun hh => by cases hh)

/-- Claim C3: an explicit override always wins over the default and over
the cross-references of the chosen context: when load succeeds under a
cluster override b, the cluster of the returned loader is the record found
under the name b (not the name referenced by the context); likewise a
context override selects the context record named by it, and a user
override selects the auth-info record named by it. -/
theorem load_override_precedence
    (g : AuthInfo → Except KError AuthInfo) (cfg : Config)
    (o1 o3 : Option String) (b : String) (l : KubeConfigLoader)
    (h : KubeConfigLoader.load g cfg o1 (some b) o3 = .ok l) :
    (∃ ncl, cfg.clusters.find? (fun c => c.name == b) = some ncl ∧
      ncl.name = b ∧ l.cluster = ncl.cluster)
    ∧ (∀ cn, o1 = some cn →
        ∃ nc, cfg.contexts.find? (fun c => c.name == cn) = some nc ∧
          nc.name = cn ∧ l.current_context = nc.context)
    ∧ (∀ un, o3 = some un →
        ∃ nu, cfg.auth_infos.find? (fun c => c.name == un) = some nu ∧
          nu.name = un ∧ g nu.auth_info = .ok l.user) := by
  unfold KubeConfigLoader.load at h
  cases hc : cfg.contexts.find?
      (fun named_context => named_context.name == o1.getD cfg.current_context) with
  | none => rw [hc] at h; exact Except.noConfusion h
  | some nc =>
    simp only [hc, Option.getD_some] at h
    cases hcl : cfg.clusters.find?
        (fun named_cluster => named_cluster.name == b) with
    | none => rw [hcl] at h; exact Except.noConfusion h
    | some ncl =>
      simp only [hcl] at h
      cases hu : cfg.auth_infos.find?
          (fun named_user => named_user.name == o3.getD nc.context.user) with
      | none => rw [hu] at h; exact Except.noConfusion h
      | some nu =>
        simp only [hu] at h
        cases hg : g nu.auth_info with
        | error e => simp only [hg] at h; exact Except.noConfusion h
        | ok u =>
          simp only [hg] at h
          have hl : KubeConfigLoader.mk nc.context ncl.cluster u = l :=
            Except.ok.inj h
          subst hl
          refine ⟨⟨ncl, rfl, by simpa using List.find?_some hcl, rfl⟩, ?_, ?_⟩
          · intro cn hcn
            subst hcn
            simp only [Option.getD_some] at hc
            exact ⟨nc, hc, by simpa using List.find?_some hc, rfl⟩
          · intro un hun
            subst hun
            simp only [Option.getD_some] at hu
            exact ⟨nu, hu, by simpa using List.find?_some hu, hg⟩

/-- Witness for C3: in cfg_w the default context dev references cluster a,
yet resolving with cluster override b yields the record named b. -/
theorem load_override_precedence_witness :
    ∃ ncl, cfg_w.clusters.find? (fun c => c.name == "b") = some ncl ∧
      ncl.name = "b" ∧
      (KubeConfigLoader.mk ctx_dev cluster_b authInfo_u1).cluster = ncl.cluster :=
  (load_override_precedence load_gcp_id cfg_w none none "b"
    ⟨ctx_dev, cluster_b, authInfo_u1⟩ (by decide)).1

/-- Claim C4: when resolution fails because a named entity is absent from
its collection, the error names exactly that collection: a missing context
gives the current-context error, a present context with a missing cluster
gives the cluster error, present context and cluster with a missing user
give the user error, and the three error values are pairwise distinct, so
the error never names a different collection. -/
theorem load_error_identifies_collection
    (g : AuthInfo → Except KError AuthInfo) (cfg : Config) (o1 o2 o3 : Option String) :
    (cfg.contexts.find? (fun named_context => named_context.name == o1.getD cfg.current_context) = none →
      KubeConfigLoader.load g cfg o1 o2 o3 =
        .error (.kind (.kubeConfig "Unable to load current context")))
    ∧ (∀ nc, cfg.contexts.find?
          (fun named_context => named_context.name == o1.getD cfg.current_context) = some nc →
        cfg.clusters.find?
          (fun named_cluster => named_cluster.name == o2.getD nc.context.cluster) = none →
        KubeConfigLoader.load g cfg o1 o2 o3 =
          .error (.kind (.kubeConfig "Unable to load cluster of context")))
    ∧ (∀ nc ncl, cfg.contexts.find?
          (fun named_context => named_context.name == o1.getD cfg.current_context) = some nc →
        cfg.clusters.find?
          (fun named_cluster => named_cluster.name == o2.getD nc.context.cluster) = some ncl →
        cfg.auth_infos.find?
          (fun named_user => named_user.name == o3.getD nc.context.user) = none →
        KubeConfigLoader.load g cfg o1 o2 o3 =
          .error (.kind (.kubeConfig "Unable to load user of context")))
    ∧ (KError.kind (.kubeConfig "Unable to load current context") ≠
        .kind (.kubeConfig "Unable to load cluster of context")
      ∧ KError.kind (.kubeConfig "Unable to load current context") ≠
        .kind (.kubeConfig "Unable to load user of context")
      ∧ KError.kind (.kubeConfig "Unable to load cluster of context") ≠
        .kind (.kubeConfig "Unable to load user of context")) := by
  refine ⟨?_, ?_, ?_, by decide⟩
  · intro hc
    unfold KubeConfigLoader.load
    rw [hc]
  · intro nc hc hcl
    unfold KubeConfigLoader.load
    rw [hc]
    simp only []
    rw [hcl]
  · intro nc ncl hc hcl hu
    unfold KubeConfigLoader.load
    rw [hc]
    simp only []
    rw [hcl]
    simp only []
    rw [hu]

/-- Witness for C4: context lookup succeeds in cfg_w, the cluster override
zz is absent, and the resulting error is the cluster one. -/
theorem load_error_identifies_collection_witness :
    KubeConfigLoader.load load_gcp_id cfg_w none (some "zz") none =
      .error (.kind (.kubeConfig "Unable to load cluster of context")) :=
  (load_error_identifies_collection load_gcp_id cfg_w none (some "zz") none).2.1
    ⟨"dev", ctx_dev⟩ (by decide) (by decide)

/-- Counterexample for C5: the source messages start with capital Unable
and say load, not resolve: on a configuration with no contexts the error
message is Unable to load current context, which differs from the message
unable to resolve current context stated by the claim, and likewise for
the cluster and user messages. -/
theorem load_error_message_counterexample :
    (KubeConfigLoader.load load_gcp_id cfg_empty none none none =
        .error (.kind (.kubeConfig "Unable to load current context")) ∧
      "Unable to load current context" ≠ "unable to resolve current context") ∧
    (KubeConfigLoader.load load_gcp_id cfg_noClusters none none none =
        .error (.kind (.kubeConfig "Unable to load cluster of context")) ∧
      "Unable to load cluster of context" ≠ "unable to resolve cluster of context") ∧
    (KubeConfigLoader.load load_gcp_id cfg_noUsers none none none =
        .error (.kind (.kubeConfig "Unable to load user of context")) ∧
      "Unable to load user of context" ≠ "unable to resolve user of context") := by
  decide

/-- Claim C5 as amended: the three lookup failures of load carry exactly
the messages of the source: a missing context fails with Unable to load
current context, a missing cluster with Unable to load cluster of context,
and a missing user with Unable to load user of context. -/
theorem load_error_messages_exact
    (g : AuthInfo → Except KError AuthInfo) (cfg : Config) (o1 o2 o3 : Option String) :
    (cfg.contexts.find?
        (fun named_context => named_context.name == o1.getD cfg.current_context) = none →
      ∃ msg, KubeConfigLoader.load g cfg o1 o2 o3 = .error (.kind (.kubeConfig msg)) ∧
        msg = "Unable to load current context")
    ∧ (∀ nc, cfg.contexts.find?
          (fun named_context => named_context.name == o1.getD cfg.current_context) = some nc →
        cfg.clusters.find?
          (fun named_cluster => named_cluster.name == o2.getD nc.context.cluster) = none →
        ∃ msg, KubeConfigLoader.load g cfg o1 o2 o3 = .error (.kind (.kubeConfig msg)) ∧
          msg = "Unable to load cluster of context")
    ∧ (∀ nc ncl, cfg.contexts.find?
          (fun named_context => named_context.name == o1.getD cfg.current_context) = some nc →
        cfg.clusters.find?
          (fun named_cluster => named_cluster.name == o2.getD nc.context.cluster) = some ncl →
        cfg.auth_infos.find?
          (fun named_user => named_user.name == o3.getD nc.context.user) = none →
        ∃ msg, KubeConfigLoader.load g cfg o1 o2 o3 = .error (.kind (.kubeConfig msg)) ∧
          msg = "Unable to load user of context") := by
  refine ⟨?_, ?_, ?_⟩
  · intro hc
    refine ⟨"Unable to load current context", ?_, rfl⟩
    unfold KubeConfigLoader.load
    rw [hc]
  · intro nc hc hcl
    refine ⟨"Unable to load cluster of context", ?_, rfl⟩
    unfold KubeConfigLoader.load
    simp only [hc]
    rw [hcl]
  · intro nc ncl hc hcl hu
    refine ⟨"Unable to load user of context", ?_, rfl⟩
    unfold KubeConfigLoader.load
    simp only [hc, hcl]
    rw [hu]

/-- Witness for C5: the missing-context failure on a concrete empty
configuration carries the exact current-context message. -/
theorem load_error_messages_exact_witness :
    ∃ msg, KubeConfigLoader.load load_gcp_id cfg_empty none none none =
      .error (.kind (.kubeConfig msg)) ∧ msg = "Unable to load current context" :=
  (load_error_messages_exact load_gcp_id cfg_empty none none none).1 (by decide)

/-- Claim C6: when credential materialization fails on the matched
auth-info, load returns exactly that failure and no loader value. -/
theorem load_gcp_failure_propagates
    (g : AuthInfo → Except KError AuthInfo) (cfg : Config) (o1 o2 o3 : Option String)
    (nc : NamedContext) (ncl : NamedCluster) (nu : NamedAuthInfo) (e : KError)
    (hc : cfg.contexts.find?
      (fun named_context => named_context.name == o1.getD cfg.current_context) = some nc)
    (hcl : cfg.clusters.find?
      (fun named_cluster => named_cluster.name == o2.getD nc.context.cluster) = some ncl)
    (hu : cfg.auth_infos.find?
      (fun named_user => named_user.name == o3.getD nc.context.user) = some nu)
    (hg : g nu.auth_info = .error e) :
    KubeConfigLoader.load g cfg o1 o2 o3 = .error e := by
  unfold KubeConfigLoader.load
  simp only [hc, hcl, hu, hg]

/-- Witness for C6: a failing materializer on cfg_w surfaces its own
error from load. -/
theorem load_gcp_failure_propagates_witness :
    KubeConfigLoader.load load_gcp_fail cfg_w none none none =
      .error (.kind (.kubeConfig "gcp credential fetch failed")) :=
  load_gcp_failure_propagates load_gcp_fail cfg_w none none none
    ⟨"dev", ctx_dev⟩ ⟨"a", cluster_a⟩ ⟨"u1", authInfo_u1⟩
    (.kind (.kubeConfig "gcp credential fetch failed"))
    (by decide) (by decide) (by decide) rfl

/-- Claim C9: load leaves the configuration unchanged on every path: the
state-threaded embedding returns the input Config on all branches, because
the only in-place mutation, load_gcp, acts on a clone of the stored
auth-info, and its result agrees with the pure load. -/
theorem load_does_not_mutate_config
    (g : AuthInfo → Except KError AuthInfo) (cfg : Config) (o1 o2 o3 : Option String) :
    (KubeConfigLoader.load_mut g cfg o1 o2 o3).2 = cfg ∧
    (KubeConfigLoader.load_mut g cfg o1 o2 o3).1 = KubeConfigLoader.load g cfg o1 o2 o3 := by
  constructor
  · unfold KubeConfigLoader.load_mut
    split
    · rfl
    · split
      · rfl
      · split
        · rfl
        · split
          · rfl
          · rfl
  · unfold KubeConfigLoader.load_mut KubeConfigLoader.load
    split
    · rfl
    · split
      · rfl
      · split
        · rfl
        · split
          · rfl
          · rfl

/-- Claim C10: the credential materializer runs only on executions in
which all three lookups succeed: if the instrumented load reports that
load_gcp was invoked, then the context, cluster and user lookups all found
a record. -/
theorem load_gcp_only_after_lookups
    (g : AuthInfo → Except KError AuthInfo) (cfg : Config) (o1 o2 o3 : Option String)
    (h : (KubeConfigLoader.load_traced g cfg o1 o2 o3).2 = true) :
    ∃ nc, cfg.contexts.find?
        (fun named_context => named_context.name == o1.getD cfg.current_context) = some nc ∧
    ∃ ncl, cfg.clusters.find?
        (fun named_cluster => named_cluster.name == o2.getD nc.context.cluster) = some ncl ∧
    ∃ nu, cfg.auth_infos.find?
        (fun named_user => named_user.name == o3.getD nc.context.user) = some nu := by
  unfold KubeConfigLoader.load_traced at h
  cases hc : cfg.contexts.find?
      (fun named_context => named_context.name == o1.getD cfg.current_context) with
  | none => simp only [hc] at h; exact Bool.noConfusion h
  | some nc =>
    simp only [hc] at h
    cases hcl : cfg.clusters.find?
        (fun named_cluster => named_cluster.name == o2.getD nc.context.cluster) with
    | none => simp only [hcl] at h; exact Bool.noConfusion h
    | some ncl =>
      simp only [hcl] at h
      cases hu : cfg.auth_infos.find?
          (fun named_user => named_user.name == o3.getD nc.context.user) with
      | none => simp only [hu] at h; exact Bool.noConfusion h
      | some nu => exact ⟨nc, rfl, ncl, hcl, nu, hu⟩

/-- Witness for C10: on cfg_w the materializer does run, and indeed all
three lookups succeed. -/
theorem load_gcp_only_after_lookups_witness :
    ∃ nc, cfg_w.contexts.find?
        (fun named_context =>
          named_context.name == (none : Option String).getD cfg_w.current_context) = some nc ∧
    ∃ ncl, cfg_w.clusters.find?
        (fun named_cluster =>
          named_cluster.name == (none : Option String).getD nc.context.cluster) = some ncl ∧
    ∃ nu, cfg_w.auth_infos.find?
        (fun named_user =>
          named_user.name == (none : Option String).getD nc.context.user) = some nu :=
  load_gcp_only_after_lookups load_gcp_id cfg_w none none none (by decide)

/-- Parsing a bundle of well-formed blocks yields the certificates in
input order. -/
theorem stack_from_pem_all_ok (ders : List (List Nat)) :
    X509.stack_from_pem (ders.map PemBlock.cert) = .ok (ders.map X509.mk) := by
  induction ders with
  | nil => rfl
  | cons d rest ih => simp [X509.stack_from_pem, ih]

/-- A malformed block anywhere makes the whole openssl-side parse fail. -/
theorem stack_from_pem_malformed (blocks : List PemBlock)
    (h : PemBlock.malformed ∈ blocks) :
    ∃ e, X509.stack_from_pem blocks = .error e := by
  induction blocks with
  | nil => cases h
  | cons b rest ih =>
    cases b with
    | malformed => exact ⟨"pem parse failure", rfl⟩
    | cert d =>
      have hm : PemBlock.malformed ∈ rest := by
        rcases List.mem_cons.mp h with h1 | h1
        · exact PemBlock.noConfusion h1
        · exact h1
      obtain ⟨e, he⟩ := ih hm
      exact ⟨e, by simp [X509.stack_from_pem, he]⟩

/-- The rustls-side parse on well-formed blocks, in input order. -/
theorem pemfile_certs_all_ok (ders : List (List Nat)) :
    pemfile_certs (ders.map PemBlock.cert) = .ok (ders.map X509.mk) := by
  induction ders with
  | nil => rfl
  | cons d rest ih => simp [pemfile_certs, ih]

/-- A malformed block anywhere makes the whole rustls-side parse fail. -/
theorem pemfile_certs_malformed (blocks : List PemBlock)
    (h : PemBlock.malformed ∈ blocks) :
    pemfile_certs blocks = .error () := by
  induction blocks with
  | nil => cases h
  | cons b rest ih =>
    cases b with
    | malformed => rfl
    | cert d =>
      have hm : PemBlock.malformed ∈ rest := by
        rcases List.mem_cons.mp h with h1 | h1
        · exact PemBlock.noConfusion h1
        · exact h1
      simp [pemfile_certs, ih hm]

/-- Under the canonical conversions, the openssl loop re-encodes every
parsed certificate, in order. -/
theorem push_certs_ops0 (xs : List X509) :
    push_certs opensslOps0 xs = some (xs.map (fun c => Certificate.mk c.der)) := by
  induction xs with
  | nil => rfl
  | cons c rest ih =>
    simp [push_certs, ih,
      show opensslOps0.x509_to_der c = .ok c.der from rfl,
      show opensslOps0.certificate_from_der c.der = .ok ⟨c.der⟩ from rfl]

/-- Under a constructor that accepts any bytes, the rustls loop
constructs one object per parsed certificate, in order, each built from
the length-prefixed encoding of the certificate. -/
theorem push_certs_rustls_ops0 (xs : List X509) :
    push_certs_rustls rustlsOps0 xs =
      some (xs.map (fun c => Certificate.mk c.get_encoding)) := by
  induction xs with
  | nil => rfl
  | cons c rest ih =>
    simp [push_certs_rustls, ih,
      show rustlsOps0.certificate_from_der c.get_encoding = .ok ⟨c.get_encoding⟩ from rfl]

/-- Concrete loader whose cluster has CA data configured, consisting of a
single malformed PEM block. -/
def badCaLoader : KubeConfigLoader :=
  ⟨⟨"a", "u1"⟩, ⟨"https://x", some [PemBlock.malformed], false⟩, ⟨none, none, none, none⟩⟩

/-- Claim C1, evaluated where the code contradicts it: on a cluster whose
CA data is present but malformed, both ca_bundle variants return None, the
same result as for absent CA data, because every failure inside ca_bundle
is discarded with ok() before the question-mark operator; in general no
input whatsoever can produce a Some-error result from either variant. -/
theorem caBundle_swallows_malformed :
    (badCaLoader.ca_bundle_openssl opensslOps0 = none ∧
      badCaLoader.ca_bundle_rustls rustlsOps0 = none) ∧
    (∀ (ops : OpensslOps) (l : KubeConfigLoader),
      l.ca_bundle_openssl ops = none ∨
        ∃ cs, l.ca_bundle_openssl ops = some (.ok cs)) ∧
    (∀ (ops : RustlsOps) (l : KubeConfigLoader),
      l.ca_bundle_rustls ops = none ∨
        ∃ cs, l.ca_bundle_rustls ops = some (.ok cs)) := by
  refine ⟨⟨rfl, rfl⟩, ?_, ?_⟩
  · intro ops l
    unfold KubeConfigLoader.ca_bundle_openssl
    cases h1 : l.cluster.load_certificate_authority with
    | error e => simp
    | ok bundle =>
      cases h2 : X509.stack_from_pem bundle with
      | error e => simp [h2]
      | ok stack =>
        cases h3 : push_certs ops stack with
        | none => simp [h2, h3]
        | some cs => exact Or.inr ⟨cs, by simp [h2, h3]⟩
  · intro ops l
    unfold KubeConfigLoader.ca_bundle_rustls
    cases h1 : l.cluster.load_certificate_authority with
    | error e => simp
    | ok bundle =>
      cases h2 : pemfile_certs bundle with
      | error e => simp [h2]
      | ok stack =>
        cases h3 : push_certs_rustls ops stack with
        | none => simp [h2, h3]
        | some cs => exact Or.inr ⟨cs, by simp [h2, h3]⟩

/-- Concrete loader whose CA bundle holds one well-formed certificate
block followed by one malformed block. -/
def mixedCaLoader : KubeConfigLoader :=
  ⟨⟨"a", "u1"⟩, ⟨"https://x", some [PemBlock.cert [1], PemBlock.malformed], false⟩,
    ⟨none, none, none, none⟩⟩

/-- A DER-strict model of the reqwest certificate constructor: it accepts
exactly the listed DER encodings and rejects anything else, the way a
strict DER parser rejects the length-prefixed TLS encoding. -/
def strictFromDer (valid : List (List Nat)) : List Nat → Except String Certificate :=
  fun d => if d ∈ valid then .ok ⟨d⟩ else .error "invalid der"

/-- Concrete loader whose CA bundle holds a single well-formed block. -/
def oneCertLoader : KubeConfigLoader :=
  ⟨⟨"a", "u1"⟩, ⟨"https://x", some [PemBlock.cert [1]], false⟩, ⟨none, none, none, none⟩⟩

/-- Counterexample for C2: on a bundle whose second block is malformed,
both ca_bundle variants return None, not a Some-error result and not the
one-certificate partial result; and on a fully well-formed one-block
bundle the rustls variant hands the constructor the length-prefixed
encoding of the block instead of its DER, so under a DER-strict
constructor it returns None instead of the one trusted certificate the
claim requires. -/
theorem caBundle_malformed_returns_none :
    (mixedCaLoader.ca_bundle_openssl opensslOps0 = none ∧
      mixedCaLoader.ca_bundle_rustls rustlsOps0 = none) ∧
    oneCertLoader.ca_bundle_rustls ⟨strictFromDer [[1]]⟩ = none :=
  ⟨⟨rfl, rfl⟩, rfl⟩

/-- Claim C2 as amended: on a bundle of n well-formed certificate blocks
the openssl variant returns exactly n trusted certificates in input
order; the rustls variant feeds each constructor call the u24
length-prefixed TLS encoding of the block, which is never the DER itself,
so it returns n objects built from those prefixed encodings when the
constructor accepts them and aborts to None as soon as the constructor
rejects one; if any block is malformed the whole call aborts and returns
None in both variants, never a partial sequence of the blocks that
succeeded and never a Some-error result. -/
theorem caBundle_count_order_failfast :
    (∀ (l : KubeConfigLoader) (ders : List (List Nat)),
      l.cluster.certificate_authority = some (ders.map PemBlock.cert) →
      l.ca_bundle_openssl opensslOps0 = some (.ok (ders.map Certificate.mk)))
    ∧ (∀ (l : KubeConfigLoader) (ders : List (List Nat)),
      l.cluster.certificate_authority = some (ders.map PemBlock.cert) →
      l.ca_bundle_rustls rustlsOps0 =
        some (.ok (ders.map (fun d => Certificate.mk (X509.get_encoding ⟨d⟩)))))
    ∧ (∀ c : X509, X509.get_encoding c ≠ c.der)
    ∧ (∀ (ops : RustlsOps) (l : KubeConfigLoader) (d : List Nat)
        (rest : List (List Nat)) (e : String),
      l.cluster.certificate_authority = some ((d :: rest).map PemBlock.cert) →
      ops.certificate_from_der (X509.get_encoding ⟨d⟩) = .error e →
      l.ca_bundle_rustls ops = none)
    ∧ (∀ (ops : OpensslOps) (ops2 : RustlsOps) (l : KubeConfigLoader)
        (blocks : List PemBlock),
      l.cluster.certificate_authority = some blocks →
      PemBlock.malformed ∈ blocks →
      l.ca_bundle_openssl ops = none ∧ l.ca_bundle_rustls ops2 = none) := by
  refine ⟨?_, ?_, ?_, ?_, ?_⟩
  · intro l ders h
    unfold KubeConfigLoader.ca_bundle_openssl Cluster.load_certificate_authority
    simp only [h, stack_from_pem_all_ok, push_certs_ops0, List.map_map]
    rfl
  · intro l ders h
    unfold KubeConfigLoader.ca_bundle_rustls Cluster.load_certificate_authority
    simp only [h, pemfile_certs_all_ok, push_certs_rustls_ops0, List.map_map]
    rfl
  · intro c h
    have h2 : (X509.get_encoding c).length = c.der.length := congrArg List.length h
    simp only [X509.get_encoding, List.length_append, List.length_cons,
      List.length_nil] at h2
    omega
  · intro ops l d rest e hca hf
    unfold KubeConfigLoader.ca_bundle_rustls Cluster.load_certificate_authority
    simp only [hca, pemfile_certs_all_ok]
    simp only [List.map_cons, push_certs_rustls, hf]
  · intro ops ops2 l blocks h hm
    obtain ⟨e, he⟩ := stack_from_pem_malformed blocks hm
    have hr := pemfile_certs_malformed blocks hm
    constructor
    · unfold KubeConfigLoader.ca_bundle_openssl Cluster.load_certificate_authority
      simp only [h, he]
    · unfold KubeConfigLoader.ca_bundle_rustls Cluster.load_certificate_authority
      simp only [h, hr]

/-- Concrete loader whose CA bundle holds two well-formed blocks. -/
def twoCertLoader : KubeConfigLoader :=
  ⟨⟨"a", "u1"⟩, ⟨"https://x", some [PemBlock.cert [1], PemBlock.cert [2]], false⟩,
    ⟨none, none, none, none⟩⟩

/-- Concrete loader whose CA bundle holds a well-formed block followed by
a malformed one, for the fail-fast half of the amended C2. -/
def failfastLoader : KubeConfigLoader :=
  ⟨⟨"a", "u1"⟩, ⟨"https://x", some [PemBlock.cert [3], PemBlock.malformed], false⟩,
    ⟨none, none, none, none⟩⟩

/-- Witness for C2: a two-certificate bundle yields exactly the two
certificates in order from the openssl variant, the rustls variant yields
objects built from the length-prefixed encodings under a lenient
constructor and None under a DER-strict one, and a bundle with a
malformed block yields None from both variants. -/
theorem caBundle_count_order_failfast_witness :
    twoCertLoader.ca_bundle_openssl opensslOps0 =
        some (.ok [Certificate.mk [1], Certificate.mk [2]]) ∧
    twoCertLoader.ca_bundle_rustls rustlsOps0 =
        some (.ok [Certificate.mk [0, 0, 1, 1], Certificate.mk [0, 0, 1, 2]]) ∧
    oneCertLoader.ca_bundle_rustls ⟨strictFromDer [[1]]⟩ = none ∧
    (failfastLoader.ca_bundle_openssl opensslOps0 = none ∧
      failfastLoader.ca_bundle_rustls rustlsOps0 = none) := by
  refine ⟨?_, ?_, ?_, ?_⟩
  · exact caBundle_count_order_failfast.1 twoCertLoader [[1], [2]] rfl
  · exact caBundle_count_order_failfast.2.1 twoCertLoader [[1], [2]] rfl
  · exact caBundle_count_order_failfast.2.2.2.1 ⟨strictFromDer [[1]]⟩ oneCertLoader
      [1] [] "invalid der" rfl (by decide)
  · exact caBundle_count_order_failfast.2.2.2.2 opensslOps0 rustlsOps0 failfastLoader
      [PemBlock.cert [3], PemBlock.malformed] rfl (by simp)

/-- Claim C7: in the PEM-concatenation pipeline, whenever the client
certificate and key bytes resolve, the buffer handed to the PEM identity
constructor is exactly the key bytes followed by the certificate bytes,
and the result is the constructor result with any failure collapsed to a
bare SslError. -/
theorem identity_rustls_key_then_cert
    (from_pem : List Nat → Except String Identity) (l : KubeConfigLoader)
    (cert key : List Nat)
    (hc : l.user.load_client_certificate = .ok cert)
    (hk : l.user.load_client_key = .ok key) :
    l.identity_rustls from_pem =
      mapErr (fun _ => KError.kind .sslError) (from_pem (key ++ cert)) := by
  unfold KubeConfigLoader.identity_rustls
  simp only [hc, hk]
  cases hf : from_pem (key ++ cert) with
  | error e => simp [mapErr, hf]
  | ok i => simp [mapErr, hf]

/-- Witness for C7: with cert bytes 10 and key bytes 20 the constructor
receives the key-then-cert buffer 20, 10. -/
theorem identity_rustls_key_then_cert_witness :
    KubeConfigLoader.identity_rustls (fun b => .ok ⟨b⟩)
      ⟨ctx_dev, cluster_a, authInfo_u1⟩ = .ok ⟨[20, 10]⟩ := by
  have h := identity_rustls_key_then_cert (fun b => .ok ⟨b⟩)
    ⟨ctx_dev, cluster_a, authInfo_u1⟩ [10] [20] rfl rfl
  simpa [mapErr] using h

/-- Claim C8: in the PKCS#12 pipeline, the password used to build the
archive and the password handed to the identity constructor are the same
fixed placeholder, a single space, which is non-empty; and each of the
five fallible parse or serialize steps that fails is wrapped as an
SslError carrying the underlying cause. -/
theorem identity_openssl_password_and_wrapping
    (l : KubeConfigLoader) (cert key : List Nat)
    (hc : l.user.load_client_certificate = .ok cert)
    (hk : l.user.load_client_key = .ok key) :
    (∀ (ops : OpensslOps) (x : X509) (k : PKey) (p : Pkcs12) (d : List Nat),
      ops.x509_from_pem cert = .ok x →
      ops.private_key_from_pem key = .ok k →
      ops.pkcs12_build " " "kubeconfig" k x = .ok p →
      ops.pkcs12_to_der p = .ok d →
      l.identity_openssl ops =
        mapErr (KError.wrap .sslError) (ops.from_pkcs12_der d " "))
    ∧ (" " : String) ≠ ""
    ∧ (∀ (ops : OpensslOps) (c : String),
        ops.x509_from_pem cert = .error c →
        l.identity_openssl ops = .error (.wrap .sslError c))
    ∧ (∀ (ops : OpensslOps) (x : X509) (c : String),
        ops.x509_from_pem cert = .ok x →
        ops.private_key_from_pem key = .error c →
        l.identity_openssl ops = .error (.wrap .sslError c))
    ∧ (∀ (ops : OpensslOps) (x : X509) (k : PKey) (c : String),
        ops.x509_from_pem cert = .ok x →
        ops.private_key_from_pem key = .ok k →
        ops.pkcs12_build " " "kubeconfig" k x = .error c →
        l.identity_openssl ops = .error (.wrap .sslError c))
    ∧ (∀ (ops : OpensslOps) (x : X509) (k : PKey) (p : Pkcs12) (c : String),
        ops.x509_from_pem cert = .ok x →
        ops.private_key_from_pem key = .ok k →
        ops.pkcs12_build " " "kubeconfig" k x = .ok p →
        ops.pkcs12_to_der p = .error c →
        l.identity_openssl ops = .error (.wrap .sslError c))
    ∧ (∀ (ops : OpensslOps) (x : X509) (k : PKey) (p : Pkcs12) (d : List Nat) (c : String),
        ops.x509_from_pem cert = .ok x →
        ops.private_key_from_pem key = .ok k →
        ops.pkcs12_build " " "kubeconfig" k x = .ok p →
        ops.pkcs12_to_der p = .ok d →
        ops.from_pkcs12_der d " " = .error c →
        l.identity_openssl ops = .error (.wrap .sslError c)) := by
  refine ⟨?_, by decide, ?_, ?_, ?_, ?_, ?_⟩
  · intro ops x k p d h1 h2 h3 h4
    unfold KubeConfigLoader.identity_openssl
    simp only [hc, hk, h1, h2, h3, h4]
    cases hf : ops.from_pkcs12_der d " " with
    | error c => simp [mapErr, hf]
    | ok i => simp [mapErr, hf]
  · intro ops c h1
    unfold KubeConfigLoader.identity_openssl
    simp only [hc, hk, h1]
  · intro ops x c h1 h2
    unfold KubeConfigLoader.identity_openssl
    simp only [hc, hk, h1, h2]
  · intro ops x k c h1 h2 h3
    unfold KubeConfigLoader.identity_openssl
    simp only [hc, hk, h1, h2, h3]
  · intro ops x k p c h1 h2 h3 h4
    unfold KubeConfigLoader.identity_openssl
    simp only [hc, hk, h1, h2, h3, h4]
  · intro ops x k p d c h1 h2 h3 h4 h5
    unfold KubeConfigLoader.identity_openssl
    simp only [hc, hk, h1, h2, h3, h4, h5]

/-- Witness for C8: under the canonical conversions, the pipeline on cert
bytes 10 and key bytes 20 ends at the identity constructor applied to the
serialized archive and the space password. -/
theorem identity_openssl_password_and_wrapping_witness :
    KubeConfigLoader.identity_openssl opensslOps0 ⟨ctx_dev, cluster_a, authInfo_u1⟩ =
      mapErr (KError.wrap .sslError) (opensslOps0.from_pkcs12_der [10] " ") :=
  (identity_openssl_password_and_wrapping ⟨ctx_dev, cluster_a, authInfo_u1⟩
      [10] [20] rfl rfl).1 opensslOps0 ⟨[10]⟩ ⟨[20]⟩
    ⟨" ", "kubeconfig", ⟨[20]⟩, ⟨[10]⟩⟩ [10] rfl rfl rfl rfl

end KubeRs
